import Mathlib

/-!
# Verification of the credential-rotation / model-fallback bridge

Shallow embedding of the resilience layer of the gemini-cli bridge server:
error classification (`fallback/errorDetection.ts`), the fallback service
(`FallbackService` / `FallbackManager`), SQLite-backed fallback-state
persistence (`SqliteFallbackPersistence.ts`), the API-key rotation manager
(`ApiKeyRotationManager` / `RotationService`), and the tool-call id
encoding of the protocol translator (`gemini-client.ts`).

JavaScript numbers that are used as integer counters or millisecond
timestamps are modelled as `Nat`; nullable/optional fields as `Option`;
thrown exceptions as `Except`; in-place mutation as explicit state passing.
-/

namespace Bridge

/-! ## Error classification (`src/bridge-server/src/fallback/errorDetection.ts`
and `ErrorType` from `src/bridge-server/src/types/fallback.ts`) -/

/-- The `ErrorType` enum of `types/fallback.ts`. -/
inductive ErrorType where
  | quota_exceeded
  | rate_limit
  | pro_quota_exceeded
  | generic_quota_exceeded
  | server_error
  | network_error
  | unknown_error
  | unknown
deriving DecidableEq, Repr

/-- A backend error as consumed by `errorDetection.ts`: an optional numeric
HTTP status (covering both `error.status` and `error.response.status`) and a
message string. -/
structure ErrorInput where
  status : Option Nat
  message : String
deriving DecidableEq, Repr

/-- Lower-cased message characters (`errorMessage.toLowerCase()`). -/
def msgLower (e : ErrorInput) : List Char :=
  e.message.toList.map Char.toLower

/-- Whether `pat` occurs as a contiguous run inside the second list. -/
def occursIn (pat : List Char) : List Char → Bool
  | [] => pat.isPrefixOf []
  | c :: t => pat.isPrefixOf (c :: t) || occursIn pat t

/-- Substring containment used by the keyword checks
(`lowerMessage.includes(keyword)`). -/
def containsKw (hay : List Char) (kw : String) : Bool :=
  occursIn kw.toList hay

/-- JavaScript `\w` character class (ASCII letters, digits, underscore). -/
def isWordChar (c : Char) : Bool :=
  c.isAlphanum || c == '_'

/-- Leftmost match of the regex `\b(\d{3})\b` over the message characters,
as used by `getErrorStatus` to parse a status code out of a message. -/
def scanThreeDigits (prev : Option Char) : List Char → Option Nat
  | c1 :: c2 :: c3 :: rest =>
    if (prev.all fun p => !isWordChar p) && c1.isDigit && c2.isDigit &&
        c3.isDigit &&
        (match rest with | [] => true | r :: _ => !isWordChar r) then
      some (100 * (c1.toNat - 48) + 10 * (c2.toNat - 48) + (c3.toNat - 48))
    else
      scanThreeDigits (some c1) (c2 :: c3 :: rest)
  | c :: rest => scanThreeDigits (some c) rest
  | [] => none

/-- `getErrorStatus`: the direct (or nested-response) numeric status if
present, otherwise the first `\b\d{3}\b` group of the message when it lies in
`[100, 600)`. -/
def getErrorStatus (e : ErrorInput) : Option Nat :=
  match e.status with
  | some s => some s
  | none =>
    match scanThreeDigits none e.message.toList with
    | some n => if 100 ≤ n ∧ n < 600 then some n else none
    | none => none

/-- Keyword list of `isQuotaExceededError`. -/
def quotaKeywords : List String :=
  ["quota exceeded", "quota limit", "daily quota", "usage limit",
   "rate limit exceeded", "too many requests"]

/-- `isQuotaExceededError`. -/
def isQuotaExceededError (e : ErrorInput) : Bool :=
  quotaKeywords.any fun kw => containsKw (msgLower e) kw

/-- Keyword list of `isRateLimitError`. -/
def rateLimitKeywords : List String :=
  ["429", "rate limit", "too many requests", "request limit", "throttled"]

/-- `isRateLimitError`: HTTP 429, or rate-limit wording in the message. -/
def isRateLimitError (e : ErrorInput) : Bool :=
  if getErrorStatus e == some 429 then
    true
  else
    rateLimitKeywords.any fun kw => containsKw (msgLower e) kw

/-- Keyword list of `isProQuotaExceededError`. -/
def proQuotaKeywords : List String :=
  ["pro quota", "pro model quota", "gemini-pro quota",
   "gemini-2.5-pro quota", "pro daily quota"]

/-- `isProQuotaExceededError`. -/
def isProQuotaExceededError (e : ErrorInput) : Bool :=
  proQuotaKeywords.any fun kw => containsKw (msgLower e) kw

/-- `isGenericQuotaExceededError`: a quota error that is not Pro-specific. -/
def isGenericQuotaExceededError (e : ErrorInput) : Bool :=
  if isProQuotaExceededError e then false
  else isQuotaExceededError e

/-- `isServerError`: HTTP status in `[500, 600)`. -/
def isServerError (e : ErrorInput) : Bool :=
  match getErrorStatus e with
  | some s => 500 ≤ s && s < 600
  | none => false

/-- Network-wording check in the final branch of `getErrorType`. -/
def isNetworkWording (e : ErrorInput) : Bool :=
  containsKw (msgLower e) "network" || containsKw (msgLower e) "connection" ||
    containsKw (msgLower e) "timeout"

/-- `getErrorType`: the deterministic first-match-wins classification chain. -/
def getErrorType (e : ErrorInput) : ErrorType :=
  if isProQuotaExceededError e then .pro_quota_exceeded
  else if isGenericQuotaExceededError e then .generic_quota_exceeded
  else if isRateLimitError e then .rate_limit
  else if isServerError e then .server_error
  else if isNetworkWording e then .network_error
  else .unknown_error

/-- The hard-coded `fallbackTriggerTypes` list of
`errorDetection.shouldTriggerFallback`. -/
def fallbackTriggerTypes : List ErrorType :=
  [.quota_exceeded, .rate_limit, .pro_quota_exceeded,
   .generic_quota_exceeded, .server_error]

/-- `errorDetection.shouldTriggerFallback`: the classification is one of the
trigger kinds. -/
def detectShouldTriggerFallback (e : ErrorInput) : Bool :=
  fallbackTriggerTypes.contains (getErrorType e)

/-! ## Fallback service (`FallbackService` in `src/unnamed/part_010`,
wrapped by `FallbackManager`; state shape from `types/fallback.ts`) -/

/-- The slice of `FallbackConfig` that the fallback service logic reads. -/
structure FallbackConfig where
  enabled : Bool
  primaryModel : String
  fallbackModel : String
deriving DecidableEq, Repr

/-- The `lastError` record stored inside `FallbackState`. -/
structure LastErrorInfo where
  message : String
  timestamp : String
  type : ErrorType
deriving DecidableEq, Repr

/-- `FallbackState` from `types/fallback.ts`. ISO timestamp strings are kept
as opaque strings; `string | null` fields become `Option String`. -/
structure FallbackState where
  isInFallbackMode : Bool
  fallbackStartTime : Option String
  consecutiveFailures : Nat
  lastSwitchReason : Option String
  currentModel : String
  fallbackModel : String
  lastSwitchTime : Option String
  switchCount : Nat
  lastError : Option LastErrorInfo
  lastUpdated : String
deriving DecidableEq, Repr

/-- The two exceptions `triggerFallback`/`performFallback` can throw. -/
inductive TriggerError where
  | notEnabled
  | alreadyInFallback
deriving DecidableEq, Repr

/-- The `{success, newModel, previousModel}` object `triggerFallback`
returns. -/
structure TriggerResult where
  success : Bool
  newModel : String
  previousModel : String
deriving DecidableEq, Repr

/-- `FallbackService.shouldTriggerFallback`: false when fallback is disabled
or already active, otherwise the error-detection verdict. (The
`FallbackManager` wrapper repeats the `enabled` guard.) -/
def svcShouldTriggerFallback (cfg : FallbackConfig) (st : FallbackState)
    (e : ErrorInput) : Bool :=
  if !cfg.enabled then false
  else if st.isInFallbackMode then false
  else detectShouldTriggerFallback e

/-- `FallbackService.performFallback`: the `Primary → Fallback` transition.
`now` stands for `new Date().toISOString()` at the time of the call. -/
def performFallback (cfg : FallbackConfig) (now : String) (st : FallbackState)
    (e : ErrorInput) : Except TriggerError FallbackState :=
  if !cfg.enabled then .error .notEnabled
  else if st.isInFallbackMode then .error .alreadyInFallback
  else .ok { st with
    isInFallbackMode := true
    currentModel := st.fallbackModel
    lastSwitchTime := some now
    switchCount := st.switchCount + 1
    lastError := some { message := e.message, timestamp := now,
                        type := getErrorType e } }

/-- `FallbackService.triggerFallback`: throws when disabled or already in
fallback mode, otherwise performs the transition; its internal catch turns a
`performFallback` exception into a `success := false` result. -/
def triggerFallback (cfg : FallbackConfig) (now : String) (st : FallbackState)
    (e : ErrorInput) : Except TriggerError (TriggerResult × FallbackState) :=
  if !cfg.enabled then .error .notEnabled
  else if st.isInFallbackMode then .error .alreadyInFallback
  else
    match performFallback cfg now st e with
    | .ok st' =>
      .ok ({ success := true, newModel := st.fallbackModel,
             previousModel := st.currentModel }, st')
    | .error _ =>
      .ok ({ success := false, newModel := st.currentModel,
             previousModel := st.currentModel }, st)

/-- `FallbackService.getCurrentModel`. -/
def getCurrentModel (st : FallbackState) : String :=
  st.currentModel

/-- A sequence of `triggerFallback` calls by a caller that keeps the service
state; a thrown exception leaves the service state untouched. Each call
carries its own timestamp and error. -/
def triggerFallbackSeq (cfg : FallbackConfig) (st : FallbackState) :
    List (String × ErrorInput) → FallbackState
  | [] => st
  | (now, e) :: rest =>
    match triggerFallback cfg now st e with
    | .ok (_, st') => triggerFallbackSeq cfg st' rest
    | .error _ => triggerFallbackSeq cfg st rest

/-! ## Per-request orchestration
(`GeminiApiClient.executeStreamRequest` in `src/bridge-server/src/gemini-client.ts`) -/

/-- `GeminiApiClient.executeStreamRequest`, instrumented with an invocation
log. `backend idx` is the outcome of the `idx`-th `sendMessageStream` call of
this request (`none` = success, `some e` = thrown error); `apiKey` is the
credential acquired once in `sendMessageStream` and passed unchanged to the
recursive retry; `fuel` bounds the recursion depth (`none` = fuel ran out).
The result records the surfaced outcome, the final fallback state, and one
`(model, apiKey)` entry per backend invocation. -/
def execStreamRequest (cfg : FallbackConfig) (backend : Nat → Option ErrorInput)
    (apiKey : Option String) (now : String) :
    Nat → Nat → FallbackState →
    Option (Except ErrorInput String × FallbackState ×
            List (String × Option String))
  | 0, _, _ => none
  | fuel + 1, idx, st =>
    match backend idx with
    | none =>
      some (.ok (getCurrentModel st), st, [(getCurrentModel st, apiKey)])
    | some e =>
      if svcShouldTriggerFallback cfg st e then
        match triggerFallback cfg now st e with
        | .ok (_, st') =>
          match execStreamRequest cfg backend apiKey now fuel (idx + 1) st' with
          | none => none
          | some (r, st'', log) =>
            some (r, st'', (getCurrentModel st, apiKey) :: log)
        | .error _ => some (.error e, st, [(getCurrentModel st, apiKey)])
      else some (.error e, st, [(getCurrentModel st, apiKey)])

/-! ## API-key rotation manager (`ApiKeyRotationManager` in
`src/unnamed/part_007`, types from `rotation/types.ts`) -/

/-- The `status` field of `ApiKeyInfo` (`'active' | 'failed' | 'cooldown'`;
the manager itself only ever assigns `active` and `failed`). -/
inductive KeyStatus where
  | active
  | failed
  | cooldown
deriving DecidableEq, Repr

/-- The rotation strategies of `RotationConfig`. -/
inductive Strategy where
  | roundRobin
  | random
  | leastUsed
deriving DecidableEq, Repr

/-- `ApiKeyInfo`. Timestamps (`Date`) are milliseconds as `Nat`. -/
structure ApiKeyInfo where
  key : String
  status : KeyStatus
  requestCount : Nat
  successCount : Nat
  failureCount : Nat
  consecutiveFailures : Nat
  lastUsed : Option Nat
  lastSuccess : Option Nat
  lastFailure : Option Nat
  cooldownUntil : Option Nat
  lastError : Option String
deriving DecidableEq, Repr

/-- The slice of `RotationConfig` the selection/report logic reads. -/
structure RotationConfig where
  strategy : Strategy
  maxConsecutiveFailures : Nat
  cooldownPeriod : Nat
deriving DecidableEq, Repr

/-- The manager's mutable state (`keys`, `currentIndex`, `totalRequests`). -/
structure RotationState where
  keys : List ApiKeyInfo
  currentIndex : Nat
  totalRequests : Nat
deriving DecidableEq, Repr

/-- `isKeyAvailable`: lazily re-evaluates a `failed` key's cooldown (the
source mutates the key in place; here the possibly-updated key is returned
alongside the verdict). Note that the cooldown-expiry reset touches only
`status` and `cooldownUntil`. -/
def isKeyAvailable (now : Nat) (k : ApiKeyInfo) : Bool × ApiKeyInfo :=
  if k.status = .failed then
    match k.cooldownUntil with
    | some t =>
      if now < t then (false, k)
      else (true, { k with status := .active, cooldownUntil := none })
    | none => (true, { k with status := .active, cooldownUntil := none })
  else (k.status == .active, k)

/-- `findLeastUsedKeyIndex`'s `forEach` accumulator (`minUsage` starts at
`Infinity`, modelled as `none`). -/
def findLeastUsedAux : List ApiKeyInfo → Nat → Option Nat → Nat → Nat
  | [], _, _, minIndex => minIndex
  | k :: ks, idx, minUsage, minIndex =>
    if k.status == .active && minUsage.all (fun m => k.requestCount < m) then
      findLeastUsedAux ks (idx + 1) (some k.requestCount) idx
    else
      findLeastUsedAux ks (idx + 1) minUsage minIndex

/-- `findLeastUsedKeyIndex`. -/
def findLeastUsedKeyIndex (keys : List ApiKeyInfo) : Nat :=
  findLeastUsedAux keys 0 none 0

/-- `moveToNextKey`. `rnd` models the value of
`Math.floor(Math.random() * keys.length)` for the `random` strategy; the
`default` switch branch behaves like round-robin. -/
def moveToNextKey (cfg : RotationConfig) (rnd : Nat) (st : RotationState) :
    RotationState :=
  match cfg.strategy with
  | .roundRobin => { st with currentIndex := (st.currentIndex + 1) % st.keys.length }
  | .random => { st with currentIndex := rnd % st.keys.length }
  | .leastUsed => { st with currentIndex := findLeastUsedKeyIndex st.keys }

/-- The errors `getNextApiKey` can produce: no keys configured, no available
key found after `keys.length` attempts, or (impossible in a well-formed
state) an out-of-range `currentIndex`, which in JavaScript would crash. -/
inductive RotationError where
  | noKeys
  | noAvailableFound
  | badIndex
deriving DecidableEq, Repr

/-- The `while (attempts < maxAttempts)` loop of `getNextApiKey`. `fuel` is
the number of remaining attempts, `attempt` the running attempt counter
(used only to index the random oracle `rand`). On success the chosen key's
usage statistics are updated (`updateKeyUsage`) and the key is returned. -/
def getNextApiKeyLoop (cfg : RotationConfig) (rand : Nat → Nat) (now : Nat) :
    Nat → Nat → RotationState → Except RotationError (String × RotationState)
  | 0, _, _ => .error .noAvailableFound
  | fuel + 1, attempt, st =>
    match st.keys.get? st.currentIndex with
    | none => .error .badIndex
    | some k =>
      let (avail, k') := isKeyAvailable now k
      if avail then
        let k'' := { k' with requestCount := k'.requestCount + 1,
                             lastUsed := some now }
        .ok (k''.key, { st with keys := st.keys.set st.currentIndex k'',
                                totalRequests := st.totalRequests + 1 })
      else
        getNextApiKeyLoop cfg rand now fuel (attempt + 1)
          (moveToNextKey cfg (rand attempt)
            { st with keys := st.keys.set st.currentIndex k' })

/-- `getNextApiKey`. -/
def getNextApiKey (cfg : RotationConfig) (rand : Nat → Nat) (now : Nat)
    (st : RotationState) : Except RotationError (String × RotationState) :=
  if st.keys.length = 0 then .error .noKeys
  else getNextApiKeyLoop cfg rand now st.keys.length 0 st

/-- `reportKeyUsage`. Returns the new state and whether `saveState` was
reached (an unknown key returns early without persisting). -/
def reportKeyUsage (cfg : RotationConfig) (now : Nat) (st : RotationState)
    (apiKey : String) (success : Bool) (errorType : Option String) :
    RotationState × Bool :=
  match st.keys.findIdx? (fun k => k.key == apiKey) with
  | none => (st, false)
  | some i =>
    match st.keys.get? i with
    | none => (st, false)
    | some k =>
      if success then
        let k' := { k with
          successCount := k.successCount + 1
          lastSuccess := some now
          consecutiveFailures := 0
          status := if k.status = .failed then .active else k.status }
        ({ st with keys := st.keys.set i k' }, true)
      else
        let k' := { k with
          failureCount := k.failureCount + 1
          lastFailure := some now
          consecutiveFailures := k.consecutiveFailures + 1
          lastError := errorType }
        let k'' :=
          if cfg.maxConsecutiveFailures ≤ k'.consecutiveFailures then
            { k' with status := .failed,
                      cooldownUntil := some (now + cfg.cooldownPeriod) }
          else k'
        ({ st with keys := st.keys.set i k'' }, true)

/-- A run of `n` consecutive `acquire()` calls, collecting the returned keys
(stopping at the first error). -/
def acquireSeq (cfg : RotationConfig) (rand : Nat → Nat) (now : Nat) :
    Nat → RotationState → List String × RotationState
  | 0, st => ([], st)
  | n + 1, st =>
    match getNextApiKey cfg rand now st with
    | .ok (k, st') =>
      let (ks, st'') := acquireSeq cfg rand now n st'
      (k :: ks, st'')
    | .error _ => ([], st)

/-! ## Credential acquisition for a request (`RotationService.getApiKey` in
`src/bridge-server/src/rotation/RotationService.ts` and
`GeminiApiClient.sendMessageStream` in `src/bridge-server/src/gemini-client.ts`) -/

/-- `RotationService.getDefaultApiKey`: the `GEMINI_API_KEY` environment
variable, or a thrown error when it is unset. -/
def getDefaultApiKey (defaultKey : Option String) : Except String String :=
  match defaultKey with
  | some k => .ok k
  | none => .error "No API key available (GEMINI_API_KEY not set)"

/-- `RotationService.getApiKey`: when rotation is disabled the default key is
used; otherwise a failure of `getNextApiKey` is caught and the service falls
back to the default key. -/
def rotationGetApiKey (cfg : RotationConfig) (rand : Nat → Nat) (now : Nat)
    (enabled : Bool) (mgr : Option RotationState) (defaultKey : Option String) :
    Except String (String × Option RotationState) :=
  match mgr, enabled with
  | some st, true =>
    match getNextApiKey cfg rand now st with
    | .ok (k, st') => .ok (k, some st')
    | .error _ => (getDefaultApiKey defaultKey).map fun k => (k, some st)
  | _, _ => (getDefaultApiKey defaultKey).map fun k => (k, mgr)

/-- The acquisition-relevant outcome of one `sendMessageStream` call. -/
structure SendOutcome where
  apiKeyUsed : Option String
  backendContacted : Bool
  serviceUnavailable : Bool
deriving DecidableEq, Repr

/-- The credential-acquisition path of `GeminiApiClient.sendMessageStream`
followed by the front of `executeStreamRequest`: any error from
`rotationGetApiKey` is caught (the request then runs with the default
content generator), and the backend is invoked unless the translated
history is empty (`'No message to send.'`). -/
def sendMessageStreamAcquire (cfg : RotationConfig) (rand : Nat → Nat)
    (now : Nat) (enabled : Bool) (mgr : Option RotationState)
    (defaultKey : Option String) (hasMessage : Bool) : SendOutcome :=
  let currentApiKey :=
    match rotationGetApiKey cfg rand now enabled mgr defaultKey with
    | .ok (k, _) => some k
    | .error _ => none
  if hasMessage then
    { apiKeyUsed := currentApiKey, backendContacted := true,
      serviceUnavailable := false }
  else
    { apiKeyUsed := currentApiKey, backendContacted := false,
      serviceUnavailable := false }

/-! ## Fallback-state persistence
(`src/bridge-server/src/fallback/SqliteFallbackPersistence.ts`)

The `state_data` column holds `JSON.stringify({...state, lastUpdated: now})`
and `loadState` returns `JSON.parse(row.state_data)`. The JSON text is
modelled at the level of its abstract syntax tree (`stringify`/`parse` is the
identity on that tree); `undefined` optional fields are dropped by
`JSON.stringify`, `null` fields are kept as JSON `null`. -/

/-- JSON values, as far as the persisted fallback state needs them. -/
inductive Json where
  | null
  | bool (b : Bool)
  | num (n : Int)
  | str (s : String)
  | obj (fields : List (String × Json))

/-- Field lookup in a JSON object. -/
def jLookup (fields : List (String × Json)) (k : String) : Option Json :=
  match fields with
  | [] => none
  | (k', v) :: rest => if k' == k then some v else jLookup rest k

/-- Read a boolean JSON value. -/
def jBool? : Json → Option Bool
  | .bool b => some b
  | _ => none

/-- Read a numeric JSON value as a counter (negative numbers cannot occur in
the encodings below). -/
def jNat? : Json → Option Nat
  | .num n => some n.toNat
  | _ => none

/-- Read a string JSON value. -/
def jStr? : Json → Option String
  | .str s => some s
  | _ => none

/-- Read a `string | null` JSON value. -/
def jStrOrNull? : Json → Option (Option String)
  | .str s => some (some s)
  | .null => some none
  | _ => none

/-- Read an optional (possibly absent) string field of a JSON object. -/
def jOptStrField? (fields : List (String × Json)) (k : String) :
    Option (Option String) :=
  match jLookup fields k with
  | none => some none
  | some (.str v) => some (some v)
  | some _ => none

/-- The string value of the `ErrorType` enum (TypeScript string enums
serialize to their values). -/
def errorTypeToStr : ErrorType → String
  | .quota_exceeded => "quota_exceeded"
  | .rate_limit => "rate_limit"
  | .pro_quota_exceeded => "pro_quota_exceeded"
  | .generic_quota_exceeded => "generic_quota_exceeded"
  | .server_error => "server_error"
  | .network_error => "network_error"
  | .unknown_error => "unknown_error"
  | .unknown => "unknown"

/-- Inverse of `errorTypeToStr`. -/
def errorTypeOfStr? (s : String) : Option ErrorType :=
  if s == "quota_exceeded" then some .quota_exceeded
  else if s == "rate_limit" then some .rate_limit
  else if s == "pro_quota_exceeded" then some .pro_quota_exceeded
  else if s == "generic_quota_exceeded" then some .generic_quota_exceeded
  else if s == "server_error" then some .server_error
  else if s == "network_error" then some .network_error
  else if s == "unknown_error" then some .unknown_error
  else if s == "unknown" then some .unknown
  else none

/-- JSON encoding of the `lastError` record. -/
def encodeLastError (le : LastErrorInfo) : Json :=
  .obj [("message", .str le.message), ("timestamp", .str le.timestamp),
        ("type", .str (errorTypeToStr le.type))]

/-- Decode a `lastError` record. -/
def decodeLastError? (j : Json) : Option LastErrorInfo :=
  match j with
  | .obj fs => do
    let m ← jLookup fs "message" >>= jStr?
    let t ← jLookup fs "timestamp" >>= jStr?
    let tys ← jLookup fs "type" >>= jStr?
    let ty ← errorTypeOfStr? tys
    pure { message := m, timestamp := t, type := ty }
  | _ => none

/-- Decode the `lastError | null` field. -/
def decodeLastErrorOrNull? (j : Json) : Option (Option LastErrorInfo) :=
  match j with
  | .null => some none
  | j => (decodeLastError? j).map some

/-- Encode an `Option String` that is typed `string | null`. -/
def jOfStrOrNull : Option String → Json
  | some v => .str v
  | none => .null

/-- JSON encoding of a `FallbackState` record, as `JSON.stringify` produces
it: optional (`undefined`) fields are omitted, `null` fields are kept. -/
def encodeFallbackState (s : FallbackState) : Json :=
  .obj
    ([("isInFallbackMode", .bool s.isInFallbackMode)]
      ++ (match s.fallbackStartTime with
          | some v => [("fallbackStartTime", Json.str v)]
          | none => [])
      ++ [("consecutiveFailures", .num s.consecutiveFailures)]
      ++ (match s.lastSwitchReason with
          | some v => [("lastSwitchReason", Json.str v)]
          | none => [])
      ++ [("currentModel", .str s.currentModel),
          ("fallbackModel", .str s.fallbackModel),
          ("lastSwitchTime", jOfStrOrNull s.lastSwitchTime),
          ("switchCount", .num s.switchCount),
          ("lastError", match s.lastError with
                        | some le => encodeLastError le
                        | none => Json.null),
          ("lastUpdated", .str s.lastUpdated)])

/-- Decode a `FallbackState` from its JSON tree. -/
def decodeFallbackState? (j : Json) : Option FallbackState :=
  match j with
  | .obj fs => do
    let mode ← jLookup fs "isInFallbackMode" >>= jBool?
    let fst' ← jOptStrField? fs "fallbackStartTime"
    let cf ← jLookup fs "consecutiveFailures" >>= jNat?
    let lsr ← jOptStrField? fs "lastSwitchReason"
    let cm ← jLookup fs "currentModel" >>= jStr?
    let fm ← jLookup fs "fallbackModel" >>= jStr?
    let lst ← jLookup fs "lastSwitchTime" >>= jStrOrNull?
    let sc ← jLookup fs "switchCount" >>= jNat?
    let le ← (jLookup fs "lastError").bind decodeLastErrorOrNull?
    let lu ← jLookup fs "lastUpdated" >>= jStr?
    pure { isInFallbackMode := mode, fallbackStartTime := fst',
           consecutiveFailures := cf, lastSwitchReason := lsr,
           currentModel := cm, fallbackModel := fm, lastSwitchTime := lst,
           switchCount := sc, lastError := le, lastUpdated := lu }
  | _ => none

/-- The single `fallback_state` row (`id = 1`) of the SQLite store. -/
structure DbRow where
  is_fallback_active : Nat
  current_model : Option String
  fallback_start_time : Option String
  last_updated : String
  state_data : Json

/-- JavaScript `s || null` for a string: the empty string is falsy. -/
def jsStringOrNull (s : String) : Option String :=
  if s == "" then none else some s

/-- JavaScript `v || null` for an optional string. -/
def jsOptStringOrNull : Option String → Option String
  | some s => jsStringOrNull s
  | none => none

/-- `SqliteFallbackPersistence.saveState`: UPSERT of the single row. `now`
stands for `new Date().toISOString()` taken inside the transaction; the
`state_data` column stores the full state with `lastUpdated` recomputed. -/
def saveStateDb (now : String) (s : FallbackState) (_db : Option DbRow) :
    Option DbRow :=
  some { is_fallback_active := if s.isInFallbackMode then 1 else 0,
         current_model := jsStringOrNull s.currentModel,
         fallback_start_time := jsOptStringOrNull s.fallbackStartTime,
         last_updated := now,
         state_data := encodeFallbackState { s with lastUpdated := now } }

/-- `SqliteFallbackPersistence.loadState`: `null` without a row; otherwise
the parsed `state_data`, or (when parsing fails — impossible for data written
by `saveStateDb`) a basic state rebuilt from the scalar columns. In that
unreachable branch a JavaScript `null` model column is rendered as `""`. -/
def loadStateDb (db : Option DbRow) : Option FallbackState :=
  match db with
  | none => none
  | some row =>
    match decodeFallbackState? row.state_data with
    | some st => some st
    | none =>
      some { isInFallbackMode := row.is_fallback_active != 0,
             fallbackStartTime := row.fallback_start_time,
             consecutiveFailures := 0,
             lastSwitchReason := none,
             currentModel := row.current_model.getD "",
             fallbackModel := row.current_model.getD "",
             lastSwitchTime := none,
             switchCount := 0,
             lastError := none,
             lastUpdated := row.last_updated }

/-! ## Tool-call ids (`GeminiApiClient.parseFunctionNameFromId` and
`openAIMessageToGemini` in `src/bridge-server/src/gemini-client.ts`) -/

/-- `String.prototype.split(sep)` for a one-character separator, over
character lists. -/
def splitOnChar (c : Char) : List Char → List (List Char)
  | [] => [[]]
  | x :: xs =>
    if x = c then [] :: splitOnChar c xs
    else
      match splitOnChar c xs with
      | [] => [[x]]
      | h :: t => (x :: h) :: t

/-- `Array.prototype.join(sep)` for a one-character separator. -/
def joinWithChar (c : Char) : List (List Char) → List Char
  | [] => []
  | [p] => p
  | p :: q :: rest => p ++ c :: joinWithChar c (q :: rest)

/-- `GeminiApiClient.parseFunctionNameFromId`: split the id on `'_'`; when
there are more than two parts and the first is `call`, rejoin everything
between the first and last part; otherwise fall back to a placeholder. -/
def parseFunctionNameFromId (toolCallId : List Char) : List Char :=
  match splitOnChar '_' toolCallId with
  | p0 :: rest =>
    if 2 < (p0 :: rest).length && p0 == "call".toList then
      joinWithChar '_' rest.dropLast
    else "unknown_tool_from_id".toList
  | [] => "unknown_tool_from_id".toList

/-- Modelled from the spec: tool-call ids are generated (by the stream
transformer, whose source is not in the repository snapshot; the format is
documented at `parseFunctionNameFromId`) as ``call_${functionName}_${uuid}``
— the two-delimiter encoding of the function name plus a random suffix. -/
def mkToolCallId (name suffix : List Char) : List Char :=
  "call".toList ++ '_' :: (name ++ '_' :: suffix)

/-- The `role === 'tool'` branch of `openAIMessageToGemini` reconstructs the
function name of the `functionResponse` part from the stored tool-call id. -/
def toolResponseFunctionName (tool_call_id : List Char) : List Char :=
  parseFunctionNameFromId tool_call_id

/-! ## Concrete fixtures and derived states used by the theorems -/

/-- The state produced by a successful `performFallback` transition. -/
def fallbackNext (now : String) (st : FallbackState) (e : ErrorInput) :
    FallbackState :=
  { st with isInFallbackMode := true,
            currentModel := st.fallbackModel,
            lastSwitchTime := some now,
            switchCount := st.switchCount + 1,
            lastError := some { message := e.message, timestamp := now,
                                type := getErrorType e } }

/-- A freshly initialized key entry, as `initializeApiKeys` constructs it. -/
def freshKey (s : String) : ApiKeyInfo :=
  { key := s, status := .active, requestCount := 0, successCount := 0,
    failureCount := 0, consecutiveFailures := 0, lastUsed := none,
    lastSuccess := none, lastFailure := none, cooldownUntil := none,
    lastError := none }

/-- A round-robin configuration with the default failure limits
(`maxConsecutiveFailures = 3`, `cooldownPeriod = 600000 ms`). -/
def rrConfig : RotationConfig :=
  { strategy := .roundRobin, maxConsecutiveFailures := 3,
    cooldownPeriod := 600000 }

/-- The state of a single key `k1` after three consecutive failure reports at
time 0 under `rrConfig`. -/
def c2FailedState : RotationState :=
  (reportKeyUsage rrConfig 0
    ((reportKeyUsage rrConfig 0
      ((reportKeyUsage rrConfig 0
        { keys := [freshKey "k1"], currentIndex := 0, totalRequests := 0 }
        "k1" false (some "quota")).1)
      "k1" false (some "quota")).1)
    "k1" false (some "quota")).1

/-- A key that has already failed twice in a row. -/
def wornKey : ApiKeyInfo :=
  { freshKey "k1" with
    consecutiveFailures := 2
    failureCount := 2 }

/-- A key cooling down until time 600000 after three failures. -/
def coolingKey (s : String) : ApiKeyInfo :=
  { freshKey s with
    status := .failed
    consecutiveFailures := 3
    cooldownUntil := some 600000 }

/-- The key produced by the third failure report at time 0. -/
def trippedKey : ApiKeyInfo :=
  { freshKey "k1" with
    failureCount := 3
    lastFailure := some 0
    consecutiveFailures := 3
    lastError := some "quota"
    status := .failed
    cooldownUntil := some 600000 }

/-- Two keys, both cooling down until time 600000. -/
def c5CoolingState : RotationState :=
  { keys := [coolingKey "k1", coolingKey "k2"], currentIndex := 0,
    totalRequests := 0 }

/-! ## Properties of the split/join pair -/

theorem splitOnChar_ne_nil (c : Char) (l : List Char) : splitOnChar c l ≠ [] := by
  induction l with
  | nil => simp [splitOnChar]
  | cons x xs ih =>
    simp only [splitOnChar]
    split
    · simp
    · split <;> simp

theorem splitOnChar_exists_cons (c : Char) (l : List Char) :
    ∃ h t, splitOnChar c l = h :: t := by
  cases hsp : splitOnChar c l with
  | nil => exact absurd hsp (splitOnChar_ne_nil c l)
  | cons a b => exact ⟨a, b, rfl⟩

theorem splitOnChar_append_cons (c : Char) (xs ys : List Char) :
    splitOnChar c (xs ++ c :: ys) = splitOnChar c xs ++ splitOnChar c ys := by
  induction xs with
  | nil => simp [splitOnChar]
  | cons x t ih =>
    by_cases hx : x = c
    · subst hx
      simp [splitOnChar, ih]
    · obtain ⟨h, rest, hh⟩ := splitOnChar_exists_cons c t
      simp [splitOnChar, if_neg hx, ih, hh]

theorem joinWithChar_splitOnChar (c : Char) (l : List Char) :
    joinWithChar c (splitOnChar c l) = l := by
  induction l with
  | nil => rfl
  | cons x xs ih =>
    obtain ⟨h, rest, hh⟩ := splitOnChar_exists_cons c xs
    by_cases hx : x = c
    · subst hx
      rw [hh] at ih
      simp only [splitOnChar, if_pos rfl, hh, joinWithChar, List.nil_append, ih]
    · rw [hh] at ih
      simp only [splitOnChar, if_neg hx, hh]
      cases rest with
      | nil => simpa [joinWithChar] using congrArg (x :: ·) ih
      | cons q qs => simpa [joinWithChar] using congrArg (x :: ·) ih

theorem splitOnChar_of_not_mem (c : Char) (l : List Char) (h : c ∉ l) :
    splitOnChar c l = [l] := by
  induction l with
  | nil => rfl
  | cons x xs ih =>
    have hx : x ≠ c := fun hxc => h (hxc ▸ List.mem_cons_self x xs)
    have hxs : c ∉ xs := fun hm => h (List.mem_cons_of_mem x hm)
    simp only [splitOnChar, if_neg hx, ih hxs]

theorem splitOnChar_mkToolCallId (name suffix : List Char)
    (hs : '_' ∉ suffix) :
    splitOnChar '_' (mkToolCallId name suffix) =
      "call".toList :: (splitOnChar '_' name ++ [suffix]) := by
  unfold mkToolCallId
  rw [splitOnChar_append_cons, splitOnChar_append_cons,
    splitOnChar_of_not_mem '_' suffix hs,
    splitOnChar_of_not_mem '_' "call".toList (by decide)]
  rfl

/-- C9: for every function name (delimiters allowed) and every suffix free of
the delimiter, the two-delimiter id `call_{name}_{suffix}` parses back to the
original function name, and hence the tool-result turn built from that id
carries the same function name. -/
theorem c9_toolcall_id_roundtrip (name suffix : List Char)
    (hs : '_' ∉ suffix) :
    parseFunctionNameFromId (mkToolCallId name suffix) = name ∧
    toolResponseFunctionName (mkToolCallId name suffix) = name := by
  have hparse : parseFunctionNameFromId (mkToolCallId name suffix) = name := by
    unfold parseFunctionNameFromId
    rw [splitOnChar_mkToolCallId name suffix hs]
    obtain ⟨h, t, hh⟩ := splitOnChar_exists_cons '_' name
    have hlen : 2 < ("call".toList :: (splitOnChar '_' name ++ [suffix])).length := by
      simp [hh]
    have hdrop : (splitOnChar '_' name ++ [suffix]).dropLast =
        splitOnChar '_' name := by
      simp
    simp only [hlen, hdrop, joinWithChar_splitOnChar]
    simp
  exact ⟨hparse, hparse⟩

/-- C9 witness: a concrete underscore-containing function name survives the
id roundtrip. -/
theorem c9_toolcall_id_roundtrip_witness :
    parseFunctionNameFromId
        (mkToolCallId "get_weather_report".toList "9f8a2bc41d".toList) =
      "get_weather_report".toList :=
  (c9_toolcall_id_roundtrip "get_weather_report".toList "9f8a2bc41d".toList
    (by decide)).1

/-! ## Persistence roundtrip -/

theorem errorTypeOfStr_toStr (t : ErrorType) :
    errorTypeOfStr? (errorTypeToStr t) = some t := by
  cases t <;> rfl

theorem decodeLastError_encode (le : LastErrorInfo) :
    decodeLastError? (encodeLastError le) = some le := by
  rcases le with ⟨m, t, ty⟩
  cases ty <;> rfl

theorem decodeFallbackState_encode (s : FallbackState) :
    decodeFallbackState? (encodeFallbackState s) = some s := by
  rcases s with ⟨mode, fst', cf, lsr, cm, fm, lst, sc, le, lu⟩
  cases fst' <;> cases lsr <;> cases lst <;>
    rcases le with _ | ⟨m, t, ty⟩ <;>
      first
        | rfl
        | (cases ty <;> rfl)

/-- C8: saving a fallback state and loading it back returns a state equal to
the original in every field except `lastUpdated`, which is recomputed at save
time. -/
theorem c8_save_load_roundtrip (s : FallbackState) (now : String)
    (db : Option DbRow) :
    loadStateDb (saveStateDb now s db) = some { s with lastUpdated := now } := by
  simp [loadStateDb, saveStateDb, decodeFallbackState_encode]

/-! ## Error-classification claims -/

/-- C4 counterexample: an error with HTTP status 429 and message
`"rate limit exceeded"` is classified `generic_quota_exceeded`, not
`rate_limit`, because the quota keyword list itself contains
`"rate limit exceeded"` and the quota checks run first. -/
theorem c4_counterexample :
    getErrorType { status := some 429, message := "rate limit exceeded" } =
        .generic_quota_exceeded ∧
      getErrorType { status := some 429, message := "rate limit exceeded" } ≠
        .rate_limit := by
  constructor <;> decide

/-- C4 (amended): classification follows the deterministic first-match-wins
priority chain ProQuota → GenericQuota → RateLimited → ServerError →
NetworkError → Unknown; in particular the 429 / "rate limit exceeded" error
lands in GenericQuota (its wording matches the quota keywords, which take
priority over the rate-limit check). -/
theorem c4_amended :
    (∀ e : ErrorInput,
      (getErrorType e = .pro_quota_exceeded ↔
        isProQuotaExceededError e = true) ∧
      (getErrorType e = .generic_quota_exceeded ↔
        (isProQuotaExceededError e = false ∧ isQuotaExceededError e = true)) ∧
      (getErrorType e = .rate_limit ↔
        (isProQuotaExceededError e = false ∧ isQuotaExceededError e = false ∧
          isRateLimitError e = true)) ∧
      (getErrorType e = .server_error ↔
        (isProQuotaExceededError e = false ∧ isQuotaExceededError e = false ∧
          isRateLimitError e = false ∧ isServerError e = true)) ∧
      (getErrorType e = .network_error ↔
        (isProQuotaExceededError e = false ∧ isQuotaExceededError e = false ∧
          isRateLimitError e = false ∧ isServerError e = false ∧
          isNetworkWording e = true)) ∧
      (getErrorType e = .unknown_error ↔
        (isProQuotaExceededError e = false ∧ isQuotaExceededError e = false ∧
          isRateLimitError e = false ∧ isServerError e = false ∧
          isNetworkWording e = false))) ∧
    getErrorType { status := some 429, message := "rate limit exceeded" } =
      .generic_quota_exceeded := by
  refine ⟨fun e => ?_, by decide⟩
  by_cases hp : isProQuotaExceededError e = true <;>
    by_cases hq : isQuotaExceededError e = true <;>
      by_cases hr : isRateLimitError e = true <;>
        by_cases hs : isServerError e = true <;>
          by_cases hn : isNetworkWording e = true <;>
            simp [getErrorType, isGenericQuotaExceededError, hp, hq, hr, hs, hn]

/-! ## Fallback-service claims -/

theorem getErrorType_cases (e : ErrorInput) :
    getErrorType e = .pro_quota_exceeded ∨
      getErrorType e = .generic_quota_exceeded ∨
      getErrorType e = .rate_limit ∨
      getErrorType e = .server_error ∨
      getErrorType e = .network_error ∨
      getErrorType e = .unknown_error := by
  unfold getErrorType
  repeat' split
  all_goals simp

theorem svcShould_of_inFallback (cfg : FallbackConfig) (st : FallbackState)
    (e : ErrorInput) (h : st.isInFallbackMode = true) :
    svcShouldTriggerFallback cfg st e = false := by
  unfold svcShouldTriggerFallback
  cases cfg.enabled <;> simp [h]

theorem svcShould_true_elim {cfg : FallbackConfig} {st : FallbackState}
    {e : ErrorInput} (h : svcShouldTriggerFallback cfg st e = true) :
    cfg.enabled = true ∧ st.isInFallbackMode = false ∧
      detectShouldTriggerFallback e = true := by
  unfold svcShouldTriggerFallback at h
  cases he : cfg.enabled <;> rw [he] at h <;>
    cases hm : st.isInFallbackMode <;> rw [hm] at h <;> simp_all

theorem svcShould_true_intro {cfg : FallbackConfig} {st : FallbackState}
    {e : ErrorInput} (hen : cfg.enabled = true)
    (hm : st.isInFallbackMode = false)
    (hdet : detectShouldTriggerFallback e = true) :
    svcShouldTriggerFallback cfg st e = true := by
  unfold svcShouldTriggerFallback
  simp [hen, hm, hdet]

theorem triggerFallback_ok_of {cfg : FallbackConfig} {st : FallbackState}
    (hen : cfg.enabled = true) (hm : st.isInFallbackMode = false)
    (now : String) (e : ErrorInput) :
    triggerFallback cfg now st e =
      .ok ({ success := true, newModel := st.fallbackModel,
             previousModel := st.currentModel }, fallbackNext now st e) := by
  unfold triggerFallback performFallback fallbackNext
  simp [hen, hm]

/-- C3 counterexample: with fallback enabled and the controller already in
fallback mode, `triggerFallback` does not return the current state — it
throws `'Already in fallback mode'`. -/
theorem c3_counterexample :
    triggerFallback
        { enabled := true, primaryModel := "gemini-2.5-pro",
          fallbackModel := "gemini-2.5-flash" }
        "t1"
        { isInFallbackMode := true, fallbackStartTime := none,
          consecutiveFailures := 0, lastSwitchReason := none,
          currentModel := "gemini-2.5-flash",
          fallbackModel := "gemini-2.5-flash", lastSwitchTime := some "t0",
          switchCount := 1, lastError := none, lastUpdated := "t0" }
        { status := some 429, message := "quota exceeded" } =
      .error .alreadyInFallback := by
  rfl

/-- C3 (amended): calling `triggerFallback` while already in fallback mode
throws (`'Already in fallback mode'`, or `'Fallback is not enabled'` when
disabled) without performing a transition, and any sequence of such calls
leaves the state — in particular `switchCount` — unchanged, so `switchCount`
never increases beyond the value reached at the first transition. -/
theorem c3_amended (cfg : FallbackConfig) (st : FallbackState)
    (h : st.isInFallbackMode = true) :
    (∀ now e, cfg.enabled = true →
      triggerFallback cfg now st e = .error .alreadyInFallback) ∧
    (∀ calls, triggerFallbackSeq cfg st calls = st) ∧
    (∀ calls, (triggerFallbackSeq cfg st calls).switchCount = st.switchCount) := by
  have hcall : ∀ now e, triggerFallback cfg now st e = .error .notEnabled ∨
      triggerFallback cfg now st e = .error .alreadyInFallback := by
    intro now e
    unfold triggerFallback
    cases he : cfg.enabled
    · left; simp
    · right; simp [h]
  have hseq : ∀ calls, triggerFallbackSeq cfg st calls = st := by
    intro calls
    induction calls with
    | nil => rfl
    | cons c rest ih =>
      obtain ⟨now, e⟩ := c
      rcases hcall now e with hc | hc <;> simp [triggerFallbackSeq, hc, ih]
  refine ⟨fun now e hen => ?_, hseq, fun calls => by rw [hseq calls]⟩
  unfold triggerFallback
  simp [hen, h]

/-- C3 witness: the amended statement instantiated at a concrete
already-in-fallback state and a two-call sequence. -/
theorem c3_amended_witness :
    triggerFallback
        { enabled := true, primaryModel := "gemini-2.5-pro",
          fallbackModel := "gemini-2.5-flash" }
        "t2"
        { isInFallbackMode := true, fallbackStartTime := none,
          consecutiveFailures := 0, lastSwitchReason := none,
          currentModel := "gemini-2.5-flash",
          fallbackModel := "gemini-2.5-flash", lastSwitchTime := some "t0",
          switchCount := 1, lastError := none, lastUpdated := "t0" }
        { status := none, message := "quota exceeded" } =
      .error .alreadyInFallback ∧
    (triggerFallbackSeq
        { enabled := true, primaryModel := "gemini-2.5-pro",
          fallbackModel := "gemini-2.5-flash" }
        { isInFallbackMode := true, fallbackStartTime := none,
          consecutiveFailures := 0, lastSwitchReason := none,
          currentModel := "gemini-2.5-flash",
          fallbackModel := "gemini-2.5-flash", lastSwitchTime := some "t0",
          switchCount := 1, lastError := none, lastUpdated := "t0" }
        [("t2", { status := none, message := "quota exceeded" }),
         ("t3", { status := some 503, message := "server error" })]).switchCount
      = 1 :=
  ⟨(c3_amended _ _ rfl).1 "t2" _ rfl, (c3_amended _ _ rfl).2.2 _⟩

/-- C7: with fallback enabled, `shouldTriggerFallback` returns true exactly
when the controller is still in primary mode and the classification is one of
the four trigger kinds (the quota kinds, rate-limit, server-error);
network/unknown classifications never trigger. -/
theorem c7_shouldFallback_iff (cfg : FallbackConfig) (st : FallbackState)
    (e : ErrorInput) (hen : cfg.enabled = true) :
    (svcShouldTriggerFallback cfg st e = true ↔
      (st.isInFallbackMode = false ∧
        (getErrorType e = .pro_quota_exceeded ∨
          getErrorType e = .generic_quota_exceeded ∨
          getErrorType e = .rate_limit ∨
          getErrorType e = .server_error))) ∧
    ((getErrorType e = .network_error ∨ getErrorType e = .unknown_error) →
      svcShouldTriggerFallback cfg st e = false) := by
  rcases getErrorType_cases e with hg | hg | hg | hg | hg | hg <;>
    cases hm : st.isInFallbackMode <;>
      simp [svcShouldTriggerFallback, detectShouldTriggerFallback,
        fallbackTriggerTypes, hen, hm, hg]

/-- C7 witness: a network-classified error never triggers fallback even in
primary mode with fallback enabled. -/
theorem c7_witness :
    svcShouldTriggerFallback
        { enabled := true, primaryModel := "gemini-2.5-pro",
          fallbackModel := "gemini-2.5-flash" }
        { isInFallbackMode := false, fallbackStartTime := none,
          consecutiveFailures := 0, lastSwitchReason := none,
          currentModel := "gemini-2.5-pro",
          fallbackModel := "gemini-2.5-flash", lastSwitchTime := none,
          switchCount := 0, lastError := none, lastUpdated := "t0" }
        { status := none, message := "connection timeout" } = false :=
  (c7_shouldFallback_iff _ _ _ rfl).2 (Or.inl (by decide))

/-! ## Orchestration: at most one fallback-triggered retry -/

theorem exec_of_inFallback (cfg : FallbackConfig)
    (backend : Nat → Option ErrorInput) (key : Option String) (now : String)
    (fuel idx : Nat) (st : FallbackState) (h : st.isInFallbackMode = true) :
    execStreamRequest cfg backend key now (fuel + 1) idx st =
      some ((match backend idx with
             | none => .ok (getCurrentModel st)
             | some e => .error e),
            st, [(getCurrentModel st, key)]) := by
  unfold execStreamRequest
  cases hb : backend idx
  · simp
  · simp [svcShould_of_inFallback _ _ _ h]

theorem exec_step_success (cfg : FallbackConfig)
    (backend : Nat → Option ErrorInput) (key : Option String) (now : String)
    (fuel idx : Nat) (st : FallbackState) (hb : backend idx = none) :
    execStreamRequest cfg backend key now (fuel + 1) idx st =
      some (.ok (getCurrentModel st), st, [(getCurrentModel st, key)]) := by
  conv_lhs => unfold execStreamRequest
  rw [hb]

theorem exec_step_nofallback (cfg : FallbackConfig)
    (backend : Nat → Option ErrorInput) (key : Option String) (now : String)
    (fuel idx : Nat) (st : FallbackState) (e : ErrorInput)
    (hb : backend idx = some e)
    (hsv : svcShouldTriggerFallback cfg st e = false) :
    execStreamRequest cfg backend key now (fuel + 1) idx st =
      some (.error e, st, [(getCurrentModel st, key)]) := by
  conv_lhs => unfold execStreamRequest
  rw [hb]
  dsimp only
  rw [if_neg (by simp [hsv])]

theorem exec_step_trigger (cfg : FallbackConfig)
    (backend : Nat → Option ErrorInput) (key : Option String) (now : String)
    (fuel idx : Nat) (st : FallbackState) (e : ErrorInput)
    (hb : backend idx = some e) (hen : cfg.enabled = true)
    (hm : st.isInFallbackMode = false)
    (hdet : detectShouldTriggerFallback e = true) :
    execStreamRequest cfg backend key now (fuel + 1) idx st =
      (execStreamRequest cfg backend key now fuel (idx + 1)
          (fallbackNext now st e)).map
        (fun rsl => (rsl.1, rsl.2.1, (getCurrentModel st, key) :: rsl.2.2)) := by
  conv_lhs => unfold execStreamRequest
  rw [hb]
  dsimp only
  rw [if_pos (svcShould_true_intro hen hm hdet),
    triggerFallback_ok_of hen hm now e]
  dsimp only
  cases execStreamRequest cfg backend key now fuel (idx + 1)
    (fallbackNext now st e) <;> rfl

/-- C6: every request performs at most two backend invocations (one
fallback-triggered retry); when the first invocation fails with a
trigger-kind error and the retry fails too, the retry runs with the new
(fallback) model and the same credential and its error is surfaced directly,
with exactly one `switchCount` increment. -/
theorem c6_at_most_one_retry :
    (∀ (cfg : FallbackConfig) (backend : Nat → Option ErrorInput)
        (key : Option String) (now : String) (fuel idx : Nat)
        (st : FallbackState) r st' log,
      execStreamRequest cfg backend key now fuel idx st = some (r, st', log) →
      log.length ≤ 2) ∧
    (∀ (cfg : FallbackConfig) (backend : Nat → Option ErrorInput)
        (key : Option String) (now : String) (fuel : Nat)
        (st : FallbackState) (e0 e1 : ErrorInput),
      cfg.enabled = true → st.isInFallbackMode = false →
      backend 0 = some e0 → detectShouldTriggerFallback e0 = true →
      backend 1 = some e1 →
      ∃ st', execStreamRequest cfg backend key now (fuel + 2) 0 st =
          some (.error e1, st',
            [(st.currentModel, key), (st.fallbackModel, key)]) ∧
        st'.switchCount = st.switchCount + 1 ∧
        st'.currentModel = st.fallbackModel ∧
        st'.isInFallbackMode = true) := by
  constructor
  · intro cfg backend key now fuel idx st r st' log h
    match fuel with
    | 0 => simp [execStreamRequest] at h
    | fuel + 1 =>
      cases hb : backend idx
      · rw [exec_step_success cfg backend key now fuel idx st hb] at h
        simp only [Option.some.injEq, Prod.mk.injEq] at h
        obtain ⟨-, -, hlog⟩ := h
        rw [← hlog]
        simp
      · rename_i e
        by_cases hsv : svcShouldTriggerFallback cfg st e = true
        · obtain ⟨hen, hm, hdet⟩ := svcShould_true_elim hsv
          rw [exec_step_trigger cfg backend key now fuel idx st e hb hen hm
            hdet] at h
          match fuel, h with
          | 0, h => simp [execStreamRequest] at h
          | fuel + 1, h =>
            rw [exec_of_inFallback cfg backend key now fuel (idx + 1)
              (fallbackNext now st e) rfl] at h
            simp only [Option.map_some', Option.some.injEq,
              Prod.mk.injEq] at h
            obtain ⟨-, -, hlog⟩ := h
            rw [← hlog]
            simp
        · rw [exec_step_nofallback cfg backend key now fuel idx st e hb
            (by simpa using hsv)] at h
          simp only [Option.some.injEq, Prod.mk.injEq] at h
          obtain ⟨-, -, hlog⟩ := h
          rw [← hlog]
          simp
  · intro cfg backend key now fuel st e0 e1 hen hm hb0 hdet hb1
    refine ⟨fallbackNext now st e0, ?_, rfl, rfl, rfl⟩
    rw [show (fuel + 2 : Nat) = (fuel + 1) + 1 from rfl,
      exec_step_trigger cfg backend key now (fuel + 1) 0 st e0 hb0 hen hm hdet,
      exec_of_inFallback cfg backend key now fuel 1 (fallbackNext now st e0) rfl,
      hb1]
    rfl

/-- C6 witness: a concrete request whose first invocation hits a quota error
and whose retry hits a server error performs exactly two invocations — the
second with the fallback model and the same credential — and surfaces the
second error. -/
theorem c6_witness :
    ∃ st', execStreamRequest
        { enabled := true, primaryModel := "gemini-2.5-pro",
          fallbackModel := "gemini-2.5-flash" }
        (fun idx => if idx = 0 then some { status := none, message := "quota exceeded" }
                    else some { status := some 500, message := "internal" })
        (some "k1") "t1" 2 0
        { isInFallbackMode := false, fallbackStartTime := none,
          consecutiveFailures := 0, lastSwitchReason := none,
          currentModel := "gemini-2.5-pro",
          fallbackModel := "gemini-2.5-flash", lastSwitchTime := none,
          switchCount := 0, lastError := none, lastUpdated := "t0" } =
      some (.error { status := some 500, message := "internal" }, st',
        [("gemini-2.5-pro", some "k1"), ("gemini-2.5-flash", some "k1")]) ∧
      st'.switchCount = 0 + 1 ∧
      st'.currentModel = "gemini-2.5-flash" ∧
      st'.isInFallbackMode = true :=
  c6_at_most_one_retry.2 _ _ (some "k1") "t1" 0 _
    { status := none, message := "quota exceeded" }
    { status := some 500, message := "internal" }
    rfl rfl rfl (by decide) rfl

/-! ## Rotation-manager claims -/

/-- C1: with 3 active credentials under the round-robin strategy, 5
consecutive successful `acquire()` calls all return `k1` — `currentIndex` is
advanced only when the current key is unavailable, never after a successful
acquisition — contradicting the claimed order `k1,k2,k3,k1,k2`. -/
theorem c1_round_robin_sticky :
    (acquireSeq rrConfig (fun _ => 0) 1000 5
        { keys := [freshKey "k1", freshKey "k2", freshKey "k3"],
          currentIndex := 0, totalRequests := 0 }).1 =
      ["k1", "k1", "k1", "k1", "k1"] ∧
    (acquireSeq rrConfig (fun _ => 0) 1000 5
        { keys := [freshKey "k1", freshKey "k2", freshKey "k3"],
          currentIndex := 0, totalRequests := 0 }).1 ≠
      ["k1", "k2", "k3", "k1", "k2"] := by
  constructor <;> decide

/-- C2 counterexample: after 3 failures `k1` is cooling down
(`cooldownUntil = 0 + 600000`) and excluded from `acquire()`; at `now =
600001` the first `acquire()` returns it again with status `active` and
`cooldownUntil` cleared, but `consecutiveFailures` is still 3 — not 0 as
claimed (it is reset only by a later success report). -/
theorem c2_counterexample :
    (c2FailedState.keys.map fun k =>
        (k.status, k.consecutiveFailures, k.cooldownUntil)) =
      [(KeyStatus.failed, 3, some 600000)] ∧
    (getNextApiKey rrConfig (fun _ => 0) 599999 c2FailedState).toOption =
      none ∧
    ((getNextApiKey rrConfig (fun _ => 0) 600001 c2FailedState).toOption.map
        fun p => (p.1, p.2.keys.map fun k =>
          (k.status, k.consecutiveFailures, k.cooldownUntil))) =
      some ("k1", [(KeyStatus.active, 3, none)]) := by
  refine ⟨by decide, by decide, by decide⟩

theorem moveToNextKey_keys (cfg : RotationConfig) (rnd : Nat)
    (s : RotationState) : (moveToNextKey cfg rnd s).keys = s.keys := by
  unfold moveToNextKey
  cases hstrat : cfg.strategy <;> rfl

theorem findIdx?_eq_none_of {α : Type} (p : α → Bool) (l : List α)
    (h : ∀ a ∈ l, p a = false) : l.findIdx? p = none := by
  induction l with
  | nil => rfl
  | cons x xs ih =>
    have hx := h x (List.mem_cons_self x xs)
    have hxs : ∀ a ∈ xs, p a = false := fun a ha =>
      h a (List.mem_cons_of_mem x ha)
    simp [List.findIdx?_cons, hx, ih hxs]

/-- C2 (amended): once `consecutiveFailures` reaches
`maxConsecutiveFailures` the key is marked `failed` with `cooldownUntil =
now + cooldownPeriod`; while `now < cooldownUntil` it is unavailable, and a
state whose keys are all cooling down makes `acquire()` fail; at the first
evaluation with `now ≥ cooldownUntil` the key becomes available again with
status `active` and `cooldownUntil` cleared — but `consecutiveFailures`
keeps its old value (it is reset only by a success report), not 0. -/
theorem c2_amended :
    (∀ (cfg : RotationConfig) (now : Nat) (st : RotationState)
        (apiKey : String) (err : Option String) (i : Nat) (k : ApiKeyInfo),
      st.keys.findIdx? (fun kk => kk.key == apiKey) = some i →
      st.keys.get? i = some k →
      cfg.maxConsecutiveFailures ≤ k.consecutiveFailures + 1 →
      (reportKeyUsage cfg now st apiKey false err).1.keys.get? i =
        some { k with failureCount := k.failureCount + 1,
                      lastFailure := some now,
                      consecutiveFailures := k.consecutiveFailures + 1,
                      lastError := err,
                      status := .failed,
                      cooldownUntil := some (now + cfg.cooldownPeriod) }) ∧
    (∀ (now : Nat) (k : ApiKeyInfo) (t : Nat), k.status = .failed →
      k.cooldownUntil = some t → now < t →
      isKeyAvailable now k = (false, k)) ∧
    (∀ (cfg : RotationConfig) (rand : Nat → Nat) (now : Nat)
        (st : RotationState),
      (∀ k ∈ st.keys, k.status = .failed ∧
        ∃ t, k.cooldownUntil = some t ∧ now < t) →
      (getNextApiKey cfg rand now st).toOption = none) ∧
    (∀ (now : Nat) (k : ApiKeyInfo) (t : Nat), k.status = .failed →
      k.cooldownUntil = some t → t ≤ now →
      isKeyAvailable now k =
        (true, { k with status := .active, cooldownUntil := none }) ∧
      (isKeyAvailable now k).2.consecutiveFailures = k.consecutiveFailures) := by
  refine ⟨?_, ?_, ?_, ?_⟩
  · intro cfg now st apiKey err i k hfind hget hmax
    unfold reportKeyUsage
    rw [hfind]
    dsimp only
    rw [hget]
    dsimp only
    rw [if_neg (by simp), if_pos hmax, List.get?_set_eq, hget]
    rfl
  · intro now k t hs ht hlt
    unfold isKeyAvailable
    rw [if_pos hs, ht]
    simp [hlt]
  · intro cfg rand now st hall
    have hcool : ∀ (k : ApiKeyInfo), k.status = .failed →
        (∃ t, k.cooldownUntil = some t ∧ now < t) →
        isKeyAvailable now k = (false, k) := by
      intro k hs ⟨t, ht, hlt⟩
      unfold isKeyAvailable
      rw [if_pos hs, ht]
      simp [hlt]
    have hloop : ∀ (fuel attempt : Nat) (st' : RotationState),
        (∀ k ∈ st'.keys, k.status = .failed ∧
          ∃ t, k.cooldownUntil = some t ∧ now < t) →
        (getNextApiKeyLoop cfg rand now fuel attempt st').toOption = none := by
      intro fuel
      induction fuel with
      | zero => intro attempt st' _; rfl
      | succ fuel ih =>
        intro attempt st' hinv
        unfold getNextApiKeyLoop
        cases hget : st'.keys.get? st'.currentIndex
        · rfl
        · rename_i k
          have hk := hinv k (List.get?_mem hget)
          dsimp only
          rw [hcool k hk.1 hk.2]
          dsimp only
          have hinv' : ∀ k' ∈ (moveToNextKey cfg (rand attempt)
              { st' with keys := st'.keys.set st'.currentIndex k }).keys,
              k'.status = .failed ∧
                ∃ t, k'.cooldownUntil = some t ∧ now < t := by
            intro k' hk'
            have hmem : k' ∈ st'.keys.set st'.currentIndex k := by
              rw [moveToNextKey_keys] at hk'
              simpa using hk'
            rcases List.mem_or_eq_of_mem_set hmem with hm | rfl
            · exact hinv k' hm
            · exact hk
          simpa using ih (attempt + 1) _ hinv'
    unfold getNextApiKey
    split
    · rfl
    · exact hloop st.keys.length 0 st hall
  · intro now k t hs ht hge
    unfold isKeyAvailable
    rw [if_pos hs, ht]
    simp [Nat.not_lt.mpr hge]

/-- C2 witness: the amended statement instantiated at a concrete cooling key
(failure report reaching the limit; exclusion before expiry; an all-cooling
state failing `acquire()`; recovery at expiry keeping
`consecutiveFailures = 3`). -/
theorem c2_amended_witness :
    (reportKeyUsage rrConfig 0
        { keys := [wornKey], currentIndex := 0, totalRequests := 0 }
        "k1" false (some "quota")).1.keys.get? 0 = some trippedKey ∧
    isKeyAvailable 599999 (coolingKey "k1") = (false, coolingKey "k1") ∧
    (getNextApiKey rrConfig (fun _ => 0) 599999
        { keys := [coolingKey "k1"], currentIndex := 0,
          totalRequests := 0 }).toOption = none ∧
    (isKeyAvailable 600001 (coolingKey "k1")).2.consecutiveFailures = 3 := by
  refine ⟨?_, ?_, ?_, ?_⟩
  · have h := c2_amended.1 rrConfig 0
      { keys := [wornKey], currentIndex := 0, totalRequests := 0 }
      "k1" (some "quota") 0 wornKey (by decide) (by decide) (by decide)
    rw [h]
    decide
  · exact c2_amended.2.1 599999 _ 600000 rfl rfl (by decide)
  · refine c2_amended.2.2.1 rrConfig (fun _ => 0) 599999 _ fun k hk => ?_
    have hk1 : k = coolingKey "k1" := by simpa using hk
    subst hk1
    exact ⟨rfl, 600000, rfl, by decide⟩
  · rw [(c2_amended.2.2.2 600001 _ 600000 rfl rfl (by decide)).2]
    decide

/-- C10: reporting an outcome for an API key that is not among the
configured keys is a no-op — the rotation state is returned unchanged in
every field and nothing is persisted. -/
theorem c10_unknown_key_noop (cfg : RotationConfig) (now : Nat)
    (st : RotationState) (apiKey : String) (success : Bool)
    (err : Option String) (h : ∀ k ∈ st.keys, k.key ≠ apiKey) :
    reportKeyUsage cfg now st apiKey success err = (st, false) := by
  have hfind : st.keys.findIdx? (fun k => k.key == apiKey) = none := by
    refine findIdx?_eq_none_of _ _ fun k hk => ?_
    simpa using h k hk
  unfold reportKeyUsage
  rw [hfind]

/-- C10 witness: reporting against a key string that is not configured
leaves a concrete two-key state untouched and unpersisted. -/
theorem c10_unknown_key_noop_witness :
    reportKeyUsage rrConfig 42
        { keys := [freshKey "k1", freshKey "k2"], currentIndex := 1,
          totalRequests := 7 }
        "k-unknown" true none =
      ({ keys := [freshKey "k1", freshKey "k2"], currentIndex := 1,
         totalRequests := 7 }, false) :=
  c10_unknown_key_noop rrConfig 42 _ "k-unknown" true none (by decide)

/-- C5 counterexample: with every configured credential cooling down,
`getNextApiKey` does fail — but `RotationService.getApiKey` catches the
failure and returns the default `GEMINI_API_KEY`, and the request then
contacts the backend; no service-unavailable condition is surfaced. -/
theorem c5_counterexample :
    (getNextApiKey rrConfig (fun _ => 0) 1000 c5CoolingState).toOption =
      none ∧
    rotationGetApiKey rrConfig (fun _ => 0) 1000 true (some c5CoolingState)
        (some "default-key") =
      .ok ("default-key", some c5CoolingState) ∧
    sendMessageStreamAcquire rrConfig (fun _ => 0) 1000 true
        (some c5CoolingState) (some "default-key") true =
      { apiKeyUsed := some "default-key", backendContacted := true,
        serviceUnavailable := false } := by
  refine ⟨by decide, by rfl, by rfl⟩

/-- C5 (amended): whenever `getNextApiKey` fails (in particular when every
credential is cooling down), `RotationService.getApiKey` falls back to the
default key instead of propagating `NoCredentialsAvailable`, the backend is
still contacted, and the acquisition path never surfaces a
service-unavailable condition. -/
theorem c5_amended (cfg : RotationConfig) (rand : Nat → Nat) (now : Nat)
    (st : RotationState) (dk : String)
    (h : (getNextApiKey cfg rand now st).toOption = none) :
    rotationGetApiKey cfg rand now true (some st) (some dk) =
      .ok (dk, some st) ∧
    (sendMessageStreamAcquire cfg rand now true (some st) (some dk)
        true).backendContacted = true ∧
    (∀ (hasMsg enabled : Bool) (mgr : Option RotationState)
        (defk : Option String),
      (sendMessageStreamAcquire cfg rand now enabled mgr defk
        hasMsg).serviceUnavailable = false) := by
  have hget : rotationGetApiKey cfg rand now true (some st) (some dk) =
      .ok (dk, some st) := by
    cases hE : getNextApiKey cfg rand now st with
    | ok val =>
      rw [hE] at h
      simp [Except.toOption] at h
    | error err =>
      unfold rotationGetApiKey
      dsimp only
      rw [hE]
      rfl
  refine ⟨hget, ?_, ?_⟩
  · unfold sendMessageStreamAcquire
    rw [hget]
    rfl
  · intro hasMsg enabled mgr defk
    unfold sendMessageStreamAcquire
    cases hR : rotationGetApiKey cfg rand now enabled mgr defk <;>
      cases hasMsg <;> rfl

/-- C5 witness: the amended statement at the concrete all-cooling state. -/
theorem c5_amended_witness :
    rotationGetApiKey rrConfig (fun _ => 0) 1000 true (some c5CoolingState)
        (some "default-key") =
      .ok ("default-key", some c5CoolingState) ∧
    (sendMessageStreamAcquire rrConfig (fun _ => 0) 1000 true
        (some c5CoolingState) (some "default-key") true).backendContacted =
      true :=
  ⟨(c5_amended rrConfig (fun _ => 0) 1000 c5CoolingState "default-key"
      (by decide)).1,
   (c5_amended rrConfig (fun _ => 0) 1000 c5CoolingState "default-key"
      (by decide)).2.1⟩

end Bridge
